import Mathlib

/-!
Shallow embedding of `crates/rnote-engine/src/pens/tools.rs` (the tool pen
state machine and the laser-stroke fade model) for verification.

Modelling conventions:
* `f64` values are embedded as `ℚ`; `Instant` timestamps and `Duration`s as
  `ℚ` milliseconds (the wall clock read by `Instant::now()` inside a call is
  the call's `now` argument).
* External collaborators (document, stroke store, camera internals, path
  builders) are embedded as explicit state plus effect records: a call such as
  `store.translate_strokes(..)` is recorded in an `Effects` value instead of
  mutating an unmodelled store.
-/

namespace Rnote

/-- A 2d vector (na::Vector2<f64>), componentwise rational. -/
abbrev Vec2 := ℚ × ℚ

/-- An input element (rnote-compose penpath::Element): position and pressure. -/
structure Element where
  pos : Vec2
  pressure : ℚ
deriving DecidableEq

/-- A path segment (rnote-compose penpath::Segment). -/
inductive Segment where
  | lineTo (endPoint : Element)
  | quadBezTo (cp : Vec2) (endPoint : Element)
  | cubBezTo (cp1 cp2 : Vec2) (endPoint : Element)
deriving DecidableEq

/-- A pen path (rnote-compose PenPath): a start element followed by segments. -/
structure PenPath where
  start : Element
  segments : List Segment
deriving DecidableEq

/-- PenPath::new: a path holding just the start element. -/
def PenPath.new (element : Element) : PenPath :=
  { start := element, segments := [] }

/-- Extend trait on PenPath: append segments at the end. -/
def PenPath.extend (p : PenPath) (segs : List Segment) : PenPath :=
  { p with segments := p.segments ++ segs }

/-- Builder progress (rnote-compose builders BuilderProgress). -/
inductive BuilderProgress (α : Type) where
  | inProgress
  | emitContinue (segments : List α)
  | finished (segments : List α)
deriving DecidableEq

/-- The laser store: fading stroke paths plus the last mutation time. -/
structure LaserStore where
  stroke_paths : List PenPath
  stroke_update_time : ℚ
deriving DecidableEq

/-- LaserStore::FULL_FADE_DURATION, in milliseconds. -/
def LaserStore.FULL_FADE_DURATION : ℚ := 1500

/-- LaserStore::is_faded: elapsed time since the last update has reached the
full fade duration. `now` stands for the instant `elapsed()` is measured at. -/
def LaserStore.is_faded (s : LaserStore) (now : ℚ) : Bool :=
  decide (LaserStore.FULL_FADE_DURATION ≤ now - s.stroke_update_time)

/-- LaserStore::new_stroke: clear everything when already fully faded, then
push a fresh one-element path and refresh the update time. -/
def LaserStore.new_stroke (s : LaserStore) (element : Element) (now : ℚ) : LaserStore :=
  let paths := if s.is_faded now then [] else s.stroke_paths
  { stroke_paths := paths ++ [PenPath.new element], stroke_update_time := now }

/-- Replace the last path of the list by its extension with `segs`
(`stroke_paths.last_mut()` in the source); the empty list is untouched. -/
def appendToLast (ps : List PenPath) (segs : List Segment) : List PenPath :=
  match ps with
  | [] => []
  | [p] => [p.extend segs]
  | p :: q :: rest => p :: appendToLast (q :: rest) segs

/-- LaserStore::update: segment-bearing progress extends the last path; the
update time is refreshed regardless of the variant. -/
def LaserStore.update (s : LaserStore) (progress : BuilderProgress Segment) (now : ℚ) :
    LaserStore :=
  { stroke_paths :=
      match progress with
      | .inProgress => s.stroke_paths
      | .emitContinue segs => appendToLast s.stroke_paths segs
      | .finished segs => appendToLast s.stroke_paths segs
    stroke_update_time := now }

/-- The configured tool style (pensconfig toolsconfig::ToolStyle). -/
inductive ToolStyle where
  | VerticalSpace
  | OffsetCamera
  | Zoom
  | Laser
deriving DecidableEq

/-- Pen path builder kind (rnote-compose builders PenPathBuilderType). -/
inductive PenPathBuilderType where
  | Simple
  | Curved
  | Modeled
deriving DecidableEq

/-- The vertical space tool's gesture state. -/
structure VerticalSpaceTool where
  start_pos_y : ℚ
  pos_y : ℚ
  limit_x : Option (ℚ × ℚ)
  strokes_below : List ℕ
deriving DecidableEq

/-- VerticalSpaceTool::default. -/
def VerticalSpaceTool.default : VerticalSpaceTool :=
  { start_pos_y := 0, pos_y := 0, limit_x := none, strokes_below := [] }

/-- VerticalSpaceTool::Y_OFFSET_THRESHOLD (0.1). -/
def VerticalSpaceTool.Y_OFFSET_THRESHOLD : ℚ := 1 / 10

/-- VerticalSpaceTool::SNAP_START_POS_DIST (10.0). -/
def VerticalSpaceTool.SNAP_START_POS_DIST : ℚ := 10

/-- The offset camera tool's gesture state. -/
structure OffsetCameraTool where
  start : Vec2
deriving DecidableEq

/-- The zoom tool's gesture state: start and current surface coordinates. -/
structure ZoomTool where
  start_surface_coord : Vec2
  current_surface_coord : Vec2
deriving DecidableEq

/-- The identity of a constructed path builder (the boxed `dyn Buildable`
slot of LaserTool); its emission behaviour lives in `EngineConfig`. -/
structure PathBuilder where
  builder_type : PenPathBuilderType
  start_element : Element
  start_time : ℚ
deriving DecidableEq

/-- The laser tool's gesture state: an optional owned path builder. -/
structure LaserTool where
  path_builder : Option PathBuilder
deriving DecidableEq

/-- ToolsState: whether a gesture is in progress. -/
inductive ToolsState where
  | Idle
  | Active
deriving DecidableEq

/-- The Tools pen: the four per-style gesture structs plus the state machine. -/
structure Tools where
  verticalspace_tool : VerticalSpaceTool
  offsetcamera_tool : OffsetCameraTool
  zoom_tool : ZoomTool
  laser_tool : LaserTool
  state : ToolsState
deriving DecidableEq

/-- The camera's state as this module reads and writes it. Modelled from the
spec: the camera (rnote-engine camera.rs, not part of the staged sources) is
an external collaborator exposing its total zoom, its offset and its forward
and inverse transforms between document and surface coordinates. -/
structure Camera where
  total_zoom : ℚ
  offset : Vec2
deriving DecidableEq

/-- Modelled from the spec: the camera's forward transform taking document
coordinates to surface coordinates (scaling by the total zoom, then
translating by the negated offset, matching the re-anchoring arithmetic in
the zoom branch of the source). -/
def Camera.transformPoint (c : Camera) (p : Vec2) : Vec2 :=
  (c.total_zoom * p.1 - c.offset.1, c.total_zoom * p.2 - c.offset.2)

/-- Modelled from the spec: the camera's inverse transform taking surface
coordinates back to document coordinates. -/
def Camera.transformPointInv (c : Camera) (p : Vec2) : Vec2 :=
  ((p.1 + c.offset.1) / c.total_zoom, (p.2 + c.offset.2) / c.total_zoom)

/-- An axis-aligned bounding box (p2d Aabb). -/
structure Aabb where
  mins : Vec2
  maxs : Vec2
deriving DecidableEq

/-- Aabb::merged: the componentwise hull of two boxes. -/
def Aabb.merged (a b : Aabb) : Aabb :=
  { mins := (min a.mins.1 b.mins.1, min a.mins.2 b.mins.2),
    maxs := (max a.maxs.1 b.maxs.1, max a.maxs.2 b.maxs.2) }

/-- Modelled from the spec: AabbExt::extend_by (rnote-compose ext, not part of
the staged sources) grows the box by the given vector on each side. -/
def Aabb.extend_by (a : Aabb) (v : Vec2) : Aabb :=
  { mins := (a.mins.1 - v.1, a.mins.2 - v.2),
    maxs := (a.maxs.1 + v.1, a.maxs.2 + v.2) }

/-- Aabb::new_positive: the box spanned by two corner points in any order. -/
def Aabb.new_positive (p q : Vec2) : Aabb :=
  { mins := (min p.1 q.1, min p.2 q.2), maxs := (max p.1 q.1, max p.2 q.2) }

/-- Aabb::from_half_extents: a box centered at `c` with half extents `h`. -/
def Aabb.from_half_extents (c h : Vec2) : Aabb :=
  { mins := (c.1 - h.1, c.2 - h.2), maxs := (c.1 + h.1, c.2 + h.2) }

/-- Width and height of a box (extents()). -/
def Aabb.extents (a : Aabb) : Vec2 :=
  (a.maxs.1 - a.mins.1, a.maxs.2 - a.mins.2)

/-- LaserTool::OUTER_STROKE_WIDTH (6.0). -/
def LaserTool.OUTER_STROKE_WIDTH : ℚ := 6

/-- ZoomTool::CURSOR_RADIUS (4.0). -/
def ZoomTool.CURSOR_RADIUS : ℚ := 4

/-- ZoomTool::CURSOR_STROKE_WIDTH (2.0). -/
def ZoomTool.CURSOR_STROKE_WIDTH : ℚ := 2

/-- OffsetCameraTool::CURSOR_SIZE (16.0, 16.0). -/
def OffsetCameraTool.CURSOR_SIZE : Vec2 := (16, 16)

/-- OffsetCameraTool::CURSOR_STROKE_WIDTH (2.0). -/
def OffsetCameraTool.CURSOR_STROKE_WIDTH : ℚ := 2

/-- A pointer event (rnote-compose penevent::PenEvent). Modifier keys, the
keyboard key and the text payload play no role in this module and are kept
only where the variant identity matters. -/
inductive PenEvent where
  | down (element : Element)
  | up (element : Element)
  | proximity (element : Element)
  | keyPressed
  | text (t : String)
  | cancel
deriving DecidableEq

/-- Whether an event is a Down event. -/
def PenEvent.isDown : PenEvent → Bool
  | .down _ => true
  | _ => false

/-- Whether an event ends an active gesture (Up or Cancel). -/
def PenEvent.endsGesture : PenEvent → Bool
  | .up _ => true
  | .cancel => true
  | _ => false

/-- Event propagation decision (rnote-compose eventresult). -/
inductive EventPropagation where
  | Proceed
  | Stop
deriving DecidableEq

/-- Pen progress reported back to the caller. -/
inductive PenProgress where
  | Idle
  | InProgress
  | Finished
deriving DecidableEq

/-- The event result triple returned by handle_event. -/
structure EventResult where
  handled : Bool
  propagate : EventPropagation
  progress : PenProgress
deriving DecidableEq

/-- Widget flags as far as this module sets them: only `store_modified` is
written by the source; flags merged in from external collaborator calls are
modelled as the default (the collaborators are outside this embedding). -/
structure WidgetFlags where
  store_modified : Bool := false
deriving DecidableEq

/-- The calls this module makes on its external collaborators during one
event, recorded instead of performed. -/
structure Effects where
  resize_autoexpand : ℕ := 0
  expand_autoexpand : ℕ := 0
  nudge_calls : List Vec2 := []
  regenerate_rendering : ℕ := 0
  translate_strokes_calls : List (List ℕ × Vec2) := []
  translate_strokes_images_calls : List (List ℕ × Vec2) := []
  update_geometry_calls : List (List ℕ) := []
  record_calls : ℕ := 0
  zoom_requests : List ℚ := []
  offset_sets : List Vec2 := []
  claim_frame : ℕ := 0
deriving DecidableEq

/-- The configuration and external behaviour read during one event. Modelled
from the spec where the collaborator's code is not among the staged sources:
`snap_position` (document), `keys_between` (stroke store), `builder_step`
(the active path builder's emission for one event), and the camera constants
`zoom_min`/`zoom_max` (Camera::ZOOM_MIN/ZOOM_MAX) and `drag_zoom_factor`
(Camera::DRAG_ZOOM_MAGN_ZOOM_FACTOR). -/
structure EngineConfig where
  style : ToolStyle
  limit_movement_horizontal_borders : Bool
  limit_movement_vertical_borders : Bool
  builder_type : PenPathBuilderType
  format_width : ℚ
  format_height : ℚ
  snap_position : Vec2 → Vec2
  keys_between : ℚ → ℚ → (ℚ × ℚ) → Bool → Bool → List ℕ
  builder_step : PathBuilder → PenEvent → ℚ → BuilderProgress Segment
  zoom_min : ℚ
  zoom_max : ℚ
  drag_zoom_factor : ℚ

/-- The mutable engine state this module touches directly. -/
structure EngineState where
  camera : Camera
  laser_store : LaserStore
deriving DecidableEq

/-- Everything one handle_event call produces. -/
structure HandleOut where
  tools : Tools
  engine : EngineState
  result : EventResult
  flags : WidgetFlags
  effects : Effects

/-- Tools::reset: zero the gesture struct of the currently configured style
and force the state machine back to Idle. -/
def Tools.reset (t : Tools) (cfg : EngineConfig) : Tools :=
  let t₁ : Tools :=
    match cfg.style with
    | .VerticalSpace =>
        { t with verticalspace_tool :=
            { t.verticalspace_tool with start_pos_y := 0, pos_y := 0 } }
    | .OffsetCamera =>
        { t with offsetcamera_tool := { start := ((0 : ℚ), (0 : ℚ)) } }
    | .Zoom =>
        { t with zoom_tool :=
            { start_surface_coord := ((0 : ℚ), (0 : ℚ)),
              current_surface_coord := ((0 : ℚ), (0 : ℚ)) } }
    | .Laser =>
        { t with laser_tool := { path_builder := none } }
  { t₁ with state := .Idle }

/-- The y offset the vertical space tool computes on a continue event: snap
back to the start position when the pointer is within the snap distance of
it, otherwise the document-snapped delta from the current position. -/
def vsYOffset (cfg : EngineConfig) (vs : VerticalSpaceTool) (element : Element) : ℚ :=
  if |element.pos.2 - vs.start_pos_y| < VerticalSpaceTool.SNAP_START_POS_DIST then
    vs.start_pos_y - vs.pos_y
  else
    (cfg.snap_position (element.pos.1, element.pos.2 - vs.pos_y)).2

/-- The new zoom the zoom tool computes on a continue event:
old_zoom * (1 - Δy * drag factor), Δy the surface-space vertical delta since
the previous continue event. -/
def zoomNewZoom (cfg : EngineConfig) (cam : Camera) (zt : ZoomTool) (element : Element) : ℚ :=
  let new_surface := cam.transformPoint element.pos
  cam.total_zoom * (1 - (new_surface.2 - zt.current_surface_coord.2) * cfg.drag_zoom_factor)

/-- Tools::handle_event: the full event dispatch of the state machine,
mirroring the source's match on (state, event) and the inner match on the
configured style. -/
def Tools.handle_event (t : Tools) (event : PenEvent) (now : ℚ) (cfg : EngineConfig)
    (es : EngineState) : HandleOut :=
  match t.state, event with
  | .Idle, .down element =>
      let pair : Tools × EngineState :=
        match cfg.style with
        | .VerticalSpace =>
            let start_y := element.pos.2
            let pos_x := element.pos.1
            let y_max :=
              ((Rat.floor (start_y / cfg.format_height) : ℚ) + 1) * cfg.format_height
            let page_number_hor : ℚ := (Rat.floor (pos_x / cfg.format_width) : ℚ)
            let limit_x :=
              (page_number_hor * cfg.format_width, (page_number_hor + 1) * cfg.format_width)
            ({ t with verticalspace_tool :=
                 { start_pos_y := start_y, pos_y := start_y,
                   limit_x :=
                     if cfg.limit_movement_vertical_borders then some limit_x else none,
                   strokes_below :=
                     cfg.keys_between start_y y_max limit_x
                       cfg.limit_movement_vertical_borders
                       cfg.limit_movement_horizontal_borders } }, es)
        | .OffsetCamera =>
            ({ t with offsetcamera_tool := { start := element.pos } }, es)
        | .Zoom =>
            let sc := es.camera.transformPoint element.pos
            ({ t with zoom_tool :=
                 { start_surface_coord := sc, current_surface_coord := sc } }, es)
        | .Laser =>
            ({ t with laser_tool :=
                 { path_builder := some ⟨cfg.builder_type, element, now⟩ } },
             { es with laser_store := es.laser_store.new_stroke element now })
      { tools := { pair.1 with state := .Active },
        engine := pair.2,
        result := { handled := true, propagate := .Stop, progress := .InProgress },
        flags := {},
        effects := { resize_autoexpand := 1 } }
  | .Idle, _ =>
      { tools := t, engine := es,
        result := { handled := false, propagate := .Proceed, progress := .Idle },
        flags := {}, effects := {} }
  | .Active, .down element =>
      match cfg.style with
      | .VerticalSpace =>
          let y_offset := vsYOffset cfg t.verticalspace_tool element
          let moved : VerticalSpaceTool × WidgetFlags × Effects :=
            if VerticalSpaceTool.Y_OFFSET_THRESHOLD < |y_offset| then
              ({ t.verticalspace_tool with pos_y := t.verticalspace_tool.pos_y + y_offset },
               { store_modified := true },
               { translate_strokes_calls :=
                   [(t.verticalspace_tool.strokes_below, ((0 : ℚ), y_offset))],
                 translate_strokes_images_calls :=
                   [(t.verticalspace_tool.strokes_below, ((0 : ℚ), y_offset))] })
            else (t.verticalspace_tool, {}, {})
          { tools := { t with verticalspace_tool := moved.1 },
            engine := es,
            result := { handled := true, propagate := .Stop, progress := .InProgress },
            flags := moved.2.1,
            effects := { moved.2.2 with
                           nudge_calls := [element.pos],
                           expand_autoexpand := 1,
                           regenerate_rendering := 1 } }
      | .OffsetCamera =>
          let p₁ := es.camera.transformPoint element.pos
          let p₂ := es.camera.transformPoint t.offsetcamera_tool.start
          let new_offset : Vec2 :=
            (es.camera.offset.1 - (p₁.1 - p₂.1), es.camera.offset.2 - (p₁.2 - p₂.2))
          { tools := t,
            engine := { es with camera := { es.camera with offset := new_offset } },
            result := { handled := true, propagate := .Stop, progress := .InProgress },
            flags := {},
            effects := { offset_sets := [new_offset], resize_autoexpand := 1 } }
      | .Zoom =>
          let total_zoom_old := es.camera.total_zoom
          let camera_offset := es.camera.offset
          let new_surface := es.camera.transformPoint element.pos
          let new_zoom := zoomNewZoom cfg es.camera t.zoom_tool element
          if cfg.zoom_min ≤ new_zoom ∧ new_zoom ≤ cfg.zoom_max then
            let new_camera_offset : Vec2 :=
              (((camera_offset.1 + t.zoom_tool.start_surface_coord.1) / total_zoom_old)
                  * new_zoom - t.zoom_tool.start_surface_coord.1,
               ((camera_offset.2 + t.zoom_tool.start_surface_coord.2) / total_zoom_old)
                  * new_zoom - t.zoom_tool.start_surface_coord.2)
            { tools := { t with zoom_tool :=
                  { t.zoom_tool with current_surface_coord := new_surface } },
              engine := { es with camera :=
                  { total_zoom := new_zoom, offset := new_camera_offset } },
              result := { handled := true, propagate := .Stop, progress := .InProgress },
              flags := {},
              effects := { zoom_requests := [new_zoom],
                           offset_sets := [new_camera_offset],
                           expand_autoexpand := 1 } }
          else
            { tools := { t with zoom_tool :=
                  { t.zoom_tool with current_surface_coord := new_surface } },
              engine := es,
              result := { handled := true, propagate := .Stop, progress := .InProgress },
              flags := {},
              effects := {} }
      | .Laser =>
          match t.laser_tool.path_builder with
          | some b =>
              let progress := cfg.builder_step b (.down element) now
              { tools := t,
                engine := { es with laser_store := es.laser_store.update progress now },
                result := { handled := true, propagate := .Stop, progress := .InProgress },
                flags := {}, effects := {} }
          | none =>
              { tools := t, engine := es,
                result := { handled := true, propagate := .Stop, progress := .InProgress },
                flags := {}, effects := {} }
  | .Active, .up element =>
      let fin : EngineState × WidgetFlags × Effects :=
        match cfg.style with
        | .VerticalSpace =>
            (es, { store_modified := true },
             { update_geometry_calls := [t.verticalspace_tool.strokes_below],
               record_calls := 1 })
        | .Laser =>
            match t.laser_tool.path_builder with
            | some b =>
                let progress := cfg.builder_step b (.up element) now
                ({ es with laser_store := es.laser_store.update progress now },
                 {}, { claim_frame := 1 })
            | none => (es, {}, {})
        | .OffsetCamera => (es, {}, {})
        | .Zoom => (es, {}, {})
      { tools := Tools.reset t cfg,
        engine := fin.1,
        result := { handled := true, propagate := .Stop, progress := .Finished },
        flags := fin.2.1,
        effects := { fin.2.2 with resize_autoexpand := 1, regenerate_rendering := 1 } }
  | .Active, .proximity _ =>
      { tools := t, engine := es,
        result := { handled := false, propagate := .Proceed, progress := .InProgress },
        flags := {}, effects := {} }
  | .Active, .keyPressed =>
      { tools := t, engine := es,
        result := { handled := false, propagate := .Proceed, progress := .InProgress },
        flags := {}, effects := {} }
  | .Active, .cancel =>
      let fx : Effects :=
        match cfg.style with
        | .Laser => { claim_frame := 1 }
        | _ => {}
      { tools := Tools.reset t cfg,
        engine := es,
        result := { handled := true, propagate := .Stop, progress := .Finished },
        flags := {},
        effects := { fx with resize_autoexpand := 1, regenerate_rendering := 1 } }
  | .Active, .text _ =>
      { tools := t, engine := es,
        result := { handled := false, propagate := .Proceed, progress := .InProgress },
        flags := {}, effects := {} }

/-- Tools::handle_animation_frame: claim one more animation frame while the
laser store has not fully faded; the tool and engine state are untouched. -/
def Tools.handle_animation_frame (t : Tools) (es : EngineState) (now : ℚ) :
    Tools × EngineState × Effects :=
  (t, es, if es.laser_store.is_faded now then {} else { claim_frame := 1 })

/-- The read-only view bounds/draw queries take (EngineView): the camera, the
laser store, the configured style, the viewport, the external per-path
bounds (Shapeable::bounds on PenPath, modelled from the spec as an abstract
bounding-box assignment), and the query instant. -/
structure EngineView where
  camera : Camera
  laser_store : LaserStore
  style : ToolStyle
  viewport : Aabb
  pen_path_bounds : PenPath → Aabb
  now : ℚ

/-- Iterator::reduce with Aabb::merged: the hull of a list of boxes, none for
the empty list. -/
def reduceMerged : List Aabb → Option Aabb
  | [] => none
  | b :: bs => some (bs.foldl Aabb.merged b)

/-- LaserTool::bounds_on_doc: none once fully faded, otherwise the merged
path bounds extended by the outer stroke width over the total zoom. -/
def LaserTool.bounds_on_doc (_lt : LaserTool) (view : EngineView) : Option Aabb :=
  if view.laser_store.is_faded view.now then
    none
  else
    (reduceMerged (view.laser_store.stroke_paths.map view.pen_path_bounds)).map
      (fun bounds =>
        bounds.extend_by
          (LaserTool.OUTER_STROKE_WIDTH / view.camera.total_zoom,
           LaserTool.OUTER_STROKE_WIDTH / view.camera.total_zoom))

/-- VerticalSpaceTool::bounds_on_doc: the viewport-wide band between the
start line and the current line. -/
def VerticalSpaceTool.bounds_on_doc (vs : VerticalSpaceTool) (view : EngineView) :
    Option Aabb :=
  let x := view.viewport.mins.1
  let y := vs.start_pos_y
  let width := view.viewport.extents.1
  let height := vs.pos_y - vs.start_pos_y
  some (Aabb.new_positive (x, y) (x + width, y + height))

/-- OffsetCameraTool::bounds_on_doc: a cursor-sized box around the start. -/
def OffsetCameraTool.bounds_on_doc (oc : OffsetCameraTool) (view : EngineView) :
    Option Aabb :=
  some (Aabb.from_half_extents oc.start
    (((OffsetCameraTool.CURSOR_SIZE.1 + OffsetCameraTool.CURSOR_STROKE_WIDTH) * (1 / 2))
        / view.camera.total_zoom,
     ((OffsetCameraTool.CURSOR_SIZE.2 + OffsetCameraTool.CURSOR_STROKE_WIDTH) * (1 / 2))
        / view.camera.total_zoom))

/-- ZoomTool::bounds_on_doc: the box spanned by the start and current circle
centers (inverse-transformed to document coordinates), extended by the cursor
radius plus half the cursor stroke width over the total zoom. -/
def ZoomTool.bounds_on_doc (zt : ZoomTool) (view : EngineView) : Option Aabb :=
  let s := view.camera.transformPointInv zt.start_surface_coord
  let c := view.camera.transformPointInv zt.current_surface_coord
  some ((Aabb.new_positive s c).extend_by
    ((ZoomTool.CURSOR_RADIUS + ZoomTool.CURSOR_STROKE_WIDTH * (1 / 2))
        / view.camera.total_zoom,
     (ZoomTool.CURSOR_RADIUS + ZoomTool.CURSOR_STROKE_WIDTH * (1 / 2))
        / view.camera.total_zoom))

/-- Tools::bounds_on_doc: the Laser style always delegates to the laser tool;
every other style reports bounds only while Active and none while Idle. -/
def Tools.bounds_on_doc (t : Tools) (view : EngineView) : Option Aabb :=
  if view.style = ToolStyle.Laser then
    t.laser_tool.bounds_on_doc view
  else
    match t.state with
    | .Active =>
        match view.style with
        | .VerticalSpace => t.verticalspace_tool.bounds_on_doc view
        | .OffsetCamera => t.offsetcamera_tool.bounds_on_doc view
        | .Zoom => t.zoom_tool.bounds_on_doc view
        | .Laser => t.laser_tool.bounds_on_doc view
    | .Idle => none

/-- Appending via appendToLast to a list with an explicit last element
rewrites just that last element. -/
theorem appendToLast_concat (pre : List PenPath) (last : PenPath) (segs : List Segment) :
    appendToLast (pre ++ [last]) segs = pre ++ [last.extend segs] := by
  induction pre with
  | nil => rfl
  | cons p pre ih =>
      cases pre with
      | nil => rfl
      | cons q rest => simpa [appendToLast] using ih

/-- C3: LaserStore::update always sets the update time to `now`; the
in-progress variant leaves the paths unchanged; a segment-bearing variant
appends its segments to the last path, and changes nothing when the store is
empty. -/
theorem laser_update_spec (s : LaserStore) (now : ℚ) (p : BuilderProgress Segment) :
    ((s.update p now).stroke_update_time = now) ∧
    ((s.update .inProgress now).stroke_paths = s.stroke_paths) ∧
    (s.stroke_paths = [] →
      ∀ segs : List Segment,
        (s.update (.emitContinue segs) now).stroke_paths = [] ∧
        (s.update (.finished segs) now).stroke_paths = []) ∧
    (∀ (pre : List PenPath) (lastPath : PenPath) (segs : List Segment),
      s.stroke_paths = pre ++ [lastPath] →
        (s.update (.emitContinue segs) now).stroke_paths = pre ++ [lastPath.extend segs] ∧
        (s.update (.finished segs) now).stroke_paths = pre ++ [lastPath.extend segs]) := by
  refine ⟨rfl, rfl, ?_, ?_⟩
  · intro h segs
    simp [LaserStore.update, h, appendToLast]
  · intro pre lastPath segs h
    simp [LaserStore.update, h, appendToLast_concat]

/-- C4: LaserStore::new_stroke discards the existing paths exactly when the
store is already fully faded, then appends a fresh one-element path and sets
the update time to `now`; on an unfaded store the prior paths all survive. -/
theorem laser_new_stroke_spec (s : LaserStore) (e : Element) (now : ℚ) :
    ((s.new_stroke e now).stroke_update_time = now) ∧
    ((s.new_stroke e now).stroke_paths
        = (if s.is_faded now then [] else s.stroke_paths) ++ [PenPath.new e]) ∧
    (s.is_faded now = true → (s.new_stroke e now).stroke_paths = [PenPath.new e]) ∧
    (s.is_faded now = false →
      (s.new_stroke e now).stroke_paths = s.stroke_paths ++ [PenPath.new e]) := by
  refine ⟨rfl, rfl, ?_, ?_⟩ <;> intro h <;> simp [LaserStore.new_stroke, h]

/-- C5: is_faded is a threshold test on the elapsed duration alone: false
strictly below 1500 ms since the last update, true at or above 1500 ms, and
independent of the stored paths; FULL_FADE_DURATION is the constant 1500 ms. -/
theorem laser_is_faded_spec (paths paths' : List PenPath) (t d : ℚ) :
    (LaserStore.is_faded ⟨paths, t⟩ (t + d) = true ↔ 1500 ≤ d) ∧
    (d < 1500 → LaserStore.is_faded ⟨paths, t⟩ (t + d) = false) ∧
    (1500 ≤ d → LaserStore.is_faded ⟨paths, t⟩ (t + d) = true) ∧
    (LaserStore.is_faded ⟨paths, t⟩ (t + d) = LaserStore.is_faded ⟨paths', t⟩ (t + d)) ∧
    LaserStore.FULL_FADE_DURATION = 1500 := by
  refine ⟨?_, ?_, ?_, rfl, rfl⟩
  · simp only [LaserStore.is_faded, LaserStore.FULL_FADE_DURATION, add_sub_cancel_left,
      decide_eq_true_eq]
  · intro h
    simp only [LaserStore.is_faded, LaserStore.FULL_FADE_DURATION, add_sub_cancel_left,
      decide_eq_false_iff_not, not_le]
    exact h
  · intro h
    simp only [LaserStore.is_faded, LaserStore.FULL_FADE_DURATION, add_sub_cancel_left,
      decide_eq_true_eq]
    exact h

/-- C8: handle_animation_frame claims an animation frame exactly when the
laser store has not fully faded, and never mutates the tool or engine state
or performs any other collaborator call. -/
theorem animation_frame_spec (t : Tools) (es : EngineState) (now : ℚ) :
    ((Tools.handle_animation_frame t es now).2.2.claim_frame ≠ 0 ↔
      es.laser_store.is_faded now = false) ∧
    ((Tools.handle_animation_frame t es now).1 = t) ∧
    ((Tools.handle_animation_frame t es now).2.1 = es) ∧
    (es.laser_store.is_faded now = true →
      (Tools.handle_animation_frame t es now).2.2 = {}) ∧
    (es.laser_store.is_faded now = false →
      (Tools.handle_animation_frame t es now).2.2 = { claim_frame := 1 }) := by
  cases h : es.laser_store.is_faded now <;>
    simp [Tools.handle_animation_frame, h]

/-- C2: from Idle exactly a Down event activates the state machine; from
Active exactly Up and Cancel deactivate it, every other event leaves it
Active (and Idle stays Idle on every non-Down event). -/
theorem tools_state_machine_spec (t : Tools) (e : PenEvent) (now : ℚ)
    (cfg : EngineConfig) (es : EngineState) :
    ((t.handle_event e now cfg es).tools.state = ToolsState.Active)
      ↔ ((t.state = ToolsState.Idle ∧ e.isDown = true)
         ∨ (t.state = ToolsState.Active ∧ e.endsGesture = false)) := by
  obtain ⟨vs, oc, zt, ⟨pb⟩, st⟩ := t
  cases st <;> cases e <;> cases hs : cfg.style <;> cases pb <;>
    simp [Tools.handle_event, Tools.reset, PenEvent.isDown, PenEvent.endsGesture, hs] <;>
    try (split <;> rfl)

/-- C9: Tools::bounds_on_doc with the Laser style always delegates to the
laser tool's bounds, Idle or Active; with any other style it is none
whenever the state machine is Idle. -/
theorem tools_bounds_dispatch_spec (t : Tools) (view : EngineView) :
    (view.style = ToolStyle.Laser →
      t.bounds_on_doc view = t.laser_tool.bounds_on_doc view) ∧
    (view.style ≠ ToolStyle.Laser → t.state = ToolsState.Idle →
      t.bounds_on_doc view = none) := by
  constructor
  · intro h
    simp [Tools.bounds_on_doc, h]
  · intro h hI
    simp [Tools.bounds_on_doc, h, hI]

/-- C10: LaserTool::bounds_on_doc is none once the store has fully faded and
none when the path list is empty; otherwise it is the merge of all stored
paths' bounding boxes extended on each side by the outer stroke width over
the camera's total zoom. -/
theorem laser_bounds_spec (lt : LaserTool) (view : EngineView) :
    (view.laser_store.is_faded view.now = true → lt.bounds_on_doc view = none) ∧
    (view.laser_store.stroke_paths = [] → lt.bounds_on_doc view = none) ∧
    (∀ (b : Aabb) (bs : List Aabb),
      view.laser_store.is_faded view.now = false →
      view.laser_store.stroke_paths.map view.pen_path_bounds = b :: bs →
      lt.bounds_on_doc view
        = some ((bs.foldl Aabb.merged b).extend_by
            (LaserTool.OUTER_STROKE_WIDTH / view.camera.total_zoom,
             LaserTool.OUTER_STROKE_WIDTH / view.camera.total_zoom))) := by
  refine ⟨?_, ?_, ?_⟩
  · intro h
    simp [LaserTool.bounds_on_doc, h]
  · intro h
    cases hf : view.laser_store.is_faded view.now <;>
      simp [LaserTool.bounds_on_doc, h, hf, reduceMerged]
  · intro b bs hf hm
    simp [LaserTool.bounds_on_doc, hf, hm, reduceMerged]

/-- A sample pointer element at the origin. -/
def sampleEl : Element := { pos := ((0 : ℚ), (0 : ℚ)), pressure := 0 }

/-- A sample engine configuration (VerticalSpace style, both movement limits
off, identity snapping, no strokes below, a silent builder). -/
def sampleCfg : EngineConfig :=
  { style := .VerticalSpace,
    limit_movement_horizontal_borders := false,
    limit_movement_vertical_borders := false,
    builder_type := .Simple,
    format_width := 100,
    format_height := 100,
    snap_position := fun p => p,
    keys_between := fun _ _ _ _ _ => [],
    builder_step := fun _ _ _ => .inProgress,
    zoom_min := 1 / 5,
    zoom_max := 8,
    drag_zoom_factor := 1 / 100 }

/-- A sample active Tools value mid vertical-space gesture, with a captured
clamp range and affected-entity set. -/
def sampleTools : Tools :=
  { verticalspace_tool :=
      { start_pos_y := 5, pos_y := 7, limit_x := some (1, 2), strokes_below := [5] },
    offsetcamera_tool := { start := ((0 : ℚ), (0 : ℚ)) },
    zoom_tool :=
      { start_surface_coord := ((0 : ℚ), (0 : ℚ)),
        current_surface_coord := ((0 : ℚ), (0 : ℚ)) },
    laser_tool := { path_builder := none },
    state := .Active }

/-- A sample engine state: unit zoom, zero offset, empty fresh laser store. -/
def sampleEs : EngineState :=
  { camera := { total_zoom := 1, offset := ((0 : ℚ), (0 : ℚ)) },
    laser_store := { stroke_paths := [], stroke_update_time := 0 } }

/-- C6: a Down event while Active with the Zoom style whose computed new zoom
falls outside [zoom_min, zoom_max] leaves the camera (zoom and offset) and
the laser store untouched and requests no zoom, no re-anchoring offset and no
auto-expand, while the tracked current surface coordinate still advances to
the transformed pointer position; that coordinate advances on every such
event whether or not the zoom is applied. -/
theorem zoom_out_of_range_spec (t : Tools) (el : Element) (now : ℚ)
    (cfg : EngineConfig) (es : EngineState)
    (hA : t.state = ToolsState.Active) (hS : cfg.style = ToolStyle.Zoom)
    (hout : zoomNewZoom cfg es.camera t.zoom_tool el < cfg.zoom_min ∨
            cfg.zoom_max < zoomNewZoom cfg es.camera t.zoom_tool el) :
    ((t.handle_event (.down el) now cfg es).engine = es) ∧
    ((t.handle_event (.down el) now cfg es).effects.zoom_requests = []) ∧
    ((t.handle_event (.down el) now cfg es).effects.offset_sets = []) ∧
    ((t.handle_event (.down el) now cfg es).effects.expand_autoexpand = 0) ∧
    ((t.handle_event (.down el) now cfg es).tools.zoom_tool.current_surface_coord
        = es.camera.transformPoint el.pos) ∧
    (∀ (t' : Tools) (cfg' : EngineConfig) (es' : EngineState),
      t'.state = ToolsState.Active → cfg'.style = ToolStyle.Zoom →
      (t'.handle_event (.down el) now cfg' es').tools.zoom_tool.current_surface_coord
          = es'.camera.transformPoint el.pos) := by
  have hnot : ¬(cfg.zoom_min ≤ zoomNewZoom cfg es.camera t.zoom_tool el ∧
      zoomNewZoom cfg es.camera t.zoom_tool el ≤ cfg.zoom_max) := by
    rcases hout with h | h
    · exact fun hc => absurd hc.1 (not_le.mpr h)
    · exact fun hc => absurd hc.2 (not_le.mpr h)
  refine ⟨?_, ?_, ?_, ?_, ?_, ?_⟩
  · simp [Tools.handle_event, hA, hS, hnot]
  · simp [Tools.handle_event, hA, hS, hnot]
  · simp [Tools.handle_event, hA, hS, hnot]
  · simp [Tools.handle_event, hA, hS, hnot]
  · simp [Tools.handle_event, hA, hS, hnot]
  · intro t' cfg' es' hA' hS'
    simp only [Tools.handle_event, hA', hS']
    split <;> rfl

/-- C6 witness: a concrete drag far enough downward that the new zoom exceeds
zoom_max, leaving the engine state unchanged. -/
theorem zoom_out_of_range_inst :
    (Tools.handle_event sampleTools
        (.down { pos := ((0 : ℚ), (-1000 : ℚ)), pressure := 0 }) 0
        { sampleCfg with style := .Zoom } sampleEs).engine = sampleEs :=
  (zoom_out_of_range_spec sampleTools
      { pos := ((0 : ℚ), (-1000 : ℚ)), pressure := 0 } 0
      { sampleCfg with style := .Zoom } sampleEs rfl rfl
      (Or.inr (by norm_num [zoomNewZoom, Camera.transformPoint, sampleCfg,
        sampleTools, sampleEs]))).1

/-- C7: a Down event while Active with the VerticalSpace style whose computed
y offset has magnitude at most the 0.1 deadband threshold performs no entity
translation and no cached-image translation, does not advance the tracked
current-y, and does not set the store-modified flag; above the threshold the
offset is applied and accumulated into the tracked current-y. -/
theorem verticalspace_deadband_spec (t : Tools) (el : Element) (now : ℚ)
    (cfg : EngineConfig) (es : EngineState)
    (hA : t.state = ToolsState.Active) (hS : cfg.style = ToolStyle.VerticalSpace)
    (hsmall : |vsYOffset cfg t.verticalspace_tool el| ≤ VerticalSpaceTool.Y_OFFSET_THRESHOLD) :
    ((t.handle_event (.down el) now cfg es).effects.translate_strokes_calls = []) ∧
    ((t.handle_event (.down el) now cfg es).effects.translate_strokes_images_calls = []) ∧
    ((t.handle_event (.down el) now cfg es).tools.verticalspace_tool.pos_y
        = t.verticalspace_tool.pos_y) ∧
    ((t.handle_event (.down el) now cfg es).flags.store_modified = false) ∧
    (∀ (t' : Tools) (cfg' : EngineConfig) (es' : EngineState),
      t'.state = ToolsState.Active → cfg'.style = ToolStyle.VerticalSpace →
      VerticalSpaceTool.Y_OFFSET_THRESHOLD < |vsYOffset cfg' t'.verticalspace_tool el| →
      (t'.handle_event (.down el) now cfg' es').tools.verticalspace_tool.pos_y
          = t'.verticalspace_tool.pos_y + vsYOffset cfg' t'.verticalspace_tool el ∧
      (t'.handle_event (.down el) now cfg' es').effects.translate_strokes_calls
          = [(t'.verticalspace_tool.strokes_below,
              ((0 : ℚ), vsYOffset cfg' t'.verticalspace_tool el))] ∧
      (t'.handle_event (.down el) now cfg' es').flags.store_modified = true) := by
  have hnot : ¬(VerticalSpaceTool.Y_OFFSET_THRESHOLD
      < |vsYOffset cfg t.verticalspace_tool el|) := not_lt.mpr hsmall
  refine ⟨?_, ?_, ?_, ?_, ?_⟩
  · simp [Tools.handle_event, hA, hS, hnot]
  · simp [Tools.handle_event, hA, hS, hnot]
  · simp [Tools.handle_event, hA, hS, hnot]
  · simp [Tools.handle_event, hA, hS, hnot]
  · intro t' cfg' es' hA' hS' hbig
    refine ⟨?_, ?_, ?_⟩ <;> simp [Tools.handle_event, hA', hS', hbig]

/-- C7 witness: a concrete pointer within the snap distance of the start line
and already at the start position, so the computed offset is zero and nothing
moves. -/
theorem verticalspace_deadband_inst :
    (Tools.handle_event
        { sampleTools with verticalspace_tool :=
            { start_pos_y := 5, pos_y := 5, limit_x := none, strokes_below := [] } }
        (.down { pos := ((0 : ℚ), (5 : ℚ)), pressure := 0 }) 0
        sampleCfg sampleEs).effects.translate_strokes_calls = [] :=
  (verticalspace_deadband_spec
      { sampleTools with verticalspace_tool :=
          { start_pos_y := 5, pos_y := 5, limit_x := none, strokes_below := [] } }
      { pos := ((0 : ℚ), (5 : ℚ)), pressure := 0 } 0 sampleCfg sampleEs rfl rfl
      (by norm_num [vsYOffset, VerticalSpaceTool.SNAP_START_POS_DIST,
        VerticalSpaceTool.Y_OFFSET_THRESHOLD, sampleTools])).1

/-- C1 (amended): on every gesture-ending event (Up or Cancel while Active)
the state machine returns to Idle and only the currently configured style's
gesture struct is reset; for VerticalSpace just start-y and current-y are
zeroed (the horizontal clamp range and the strokes-below set are left in
place), for OffsetCamera the start is zeroed, for Zoom both tracked surface
coordinates are zeroed, for Laser the builder slot is emptied; the structs of
every other style are unchanged. -/
theorem gesture_end_reset_spec (t : Tools) (e : PenEvent) (now : ℚ)
    (cfg : EngineConfig) (es : EngineState)
    (hA : t.state = ToolsState.Active) (hE : e.endsGesture = true) :
    ((t.handle_event e now cfg es).tools.state = ToolsState.Idle) ∧
    (cfg.style = ToolStyle.VerticalSpace →
      (t.handle_event e now cfg es).tools
        = { t with
              verticalspace_tool :=
                { t.verticalspace_tool with start_pos_y := 0, pos_y := 0 },
              state := ToolsState.Idle }) ∧
    (cfg.style = ToolStyle.OffsetCamera →
      (t.handle_event e now cfg es).tools
        = { t with
              offsetcamera_tool := { start := ((0 : ℚ), (0 : ℚ)) },
              state := ToolsState.Idle }) ∧
    (cfg.style = ToolStyle.Zoom →
      (t.handle_event e now cfg es).tools
        = { t with
              zoom_tool :=
                { start_surface_coord := ((0 : ℚ), (0 : ℚ)),
                  current_surface_coord := ((0 : ℚ), (0 : ℚ)) },
              state := ToolsState.Idle }) ∧
    (cfg.style = ToolStyle.Laser →
      (t.handle_event e now cfg es).tools
        = { t with
              laser_tool := { path_builder := none },
              state := ToolsState.Idle }) := by
  cases e <;> simp [PenEvent.endsGesture] at hE <;>
    (refine ⟨?_, ?_, ?_, ?_, ?_⟩ <;>
      first
        | (intro hs
           simp [Tools.handle_event, Tools.reset, hA, hs])
        | simp [Tools.handle_event, Tools.reset, hA])

/-- C1 counterexample: a gesture-ending Up with the VerticalSpace style does
not zero the captured horizontal clamp range or the strokes-below set. -/
theorem gesture_end_reset_cex :
    ((Tools.handle_event sampleTools (.up sampleEl) 0 sampleCfg
        sampleEs).tools.verticalspace_tool.limit_x = some (1, 2)) ∧
    ((Tools.handle_event sampleTools (.up sampleEl) 0 sampleCfg
        sampleEs).tools.verticalspace_tool.strokes_below = [5]) := by
  constructor <;> rfl

/-- C1 witness: the amended theorem applied at a concrete gesture-ending Up
event. -/
theorem gesture_end_reset_inst :
    (Tools.handle_event sampleTools (.up sampleEl) 0 sampleCfg
        sampleEs).tools.state = ToolsState.Idle :=
  (gesture_end_reset_spec sampleTools (.up sampleEl) 0 sampleCfg sampleEs rfl rfl).1
